import Mathlib

/-!
Verification development for the Sollumz_RDR exporters
(`ymap/ymapexport.py` and `ydd/yddexport.py`).

The two Python source files are shallowly embedded below.  Scene-graph
objects become Lean structures; Blender/NumPy floats are modelled as exact
rationals where only arithmetic is involved and as real numbers where
trigonometry is involved; Python `assert` failures and propagating hard
errors become `Except`; the in-place scene mutations (entity renaming,
content-flag toggling, mesh triangulation, extents write-back) become
explicit state passing: each routine that mutates an object returns the
updated object next to its record.

External collaborators that are not part of the two source files (the
Blender scene graph, the `cwxml` record classes, the preferences surface,
the jenkhash primitives, the extents helper and the triangulation
operator) are modelled from the specification, marked `Modelled from the
spec:` in their doc comments, or passed in as explicit function
parameters.
-/

namespace Sollumz

/-! ## Python string primitives

`str.lower`, `str.upper`, `re.sub` with a literal pattern, `str.replace`
and `str.split(".")[0]` are re-implemented as structurally recursive
character-list functions so that they evaluate inside the kernel. -/

/-- ASCII lower-casing of one character, as Python `str.lower` does for
the ASCII range used by the exporter. -/
def lowerChar (c : Char) : Char :=
  if 'A' ≤ c ∧ c ≤ 'Z' then Char.ofNat (c.toNat + 32) else c

/-- ASCII upper-casing of one character. -/
def upperChar (c : Char) : Char :=
  if 'a' ≤ c ∧ c ≤ 'z' then Char.ofNat (c.toNat - 32) else c

/-- If `pat` is a prefix of the second list, return the remainder. -/
def dropPat : List Char → List Char → Option (List Char)
  | [], rest => some rest
  | _ :: _, [] => none
  | p :: ps, c :: cs => if p = c then dropPat ps cs else none

/-- Fuelled worker for `replaceChars`; the fuel starts at the length of
the subject string, which suffices for a non-empty pattern. -/
def replaceFuel (pat repl : List Char) : ℕ → List Char → List Char
  | _, [] => []
  | 0, s => s
  | Nat.succ n, c :: cs =>
    match dropPat pat (c :: cs) with
    | some rest => repl ++ replaceFuel pat repl n rest
    | none => c :: replaceFuel pat repl n cs

/-- Replace every non-overlapping occurrence of `pat` by `repl`,
left to right, as Python `re.sub`/`str.replace` do for a literal
pattern. -/
def replaceChars (pat repl s : List Char) : List Char :=
  replaceFuel pat repl s.length s

/-- Python `s.lower()`. -/
def pyLower (s : String) : String := ⟨s.data.map lowerChar⟩

/-- Python `s.upper()`. -/
def pyUpper (s : String) : String := ⟨s.data.map upperChar⟩

/-- Python `s.replace(pat, repl)` / `re.sub(pat, repl, s)` for a literal
pattern. -/
def pyReplace (pat repl s : String) : String :=
  ⟨replaceChars pat.data repl.data s.data⟩

/-- Python `s.split(".")[0]`: the characters before the first period. -/
def takeUntilDot : List Char → List Char
  | [] => []
  | c :: cs => if c = '.' then [] else c :: takeUntilDot cs

/-- Python `name.split(".")[0]` as used by the drawable-set hash key. -/
def baseName (s : String) : String := ⟨takeUntilDot s.data⟩

/-- `ymapexport.py` line 84: lower-case the name and strip every
`" (not found)"` diagnostic marker. -/
def pyNormalizeEntityName (s : String) : String :=
  pyReplace " (not found)" "" (pyLower s)

/-- Modelled from the spec: `tools/blenderhelper.remove_number_suffix` is
outside the two source files; the spec describes it as stripping a
trailing Blender duplicate marker `".NNN"` (a period followed by three
digits). -/
def remove_number_suffix (s : String) : String :=
  match s.data.reverse with
  | d1 :: d2 :: d3 :: '.' :: rest =>
    if d1.isDigit ∧ d2.isDigit ∧ d3.isDigit then ⟨rest.reverse⟩ else s
  | _ => s

/-! ## Python rounding

Python 3 `round` rounds half-way cases to the nearest even integer; Lean
`round` rounds half-way cases up.  `pyRound` corrects the half-way case:
a real with fractional part `1/2` is sent to twice the rounding of its
half, which is the nearest even integer. -/

/-- Python 3 `round` on the reals (round half to even). -/
noncomputable def pyRound (x : ℝ) : ℤ :=
  if Int.fract x = 1 / 2 then 2 * round (x / 2) else round x

/-- Python 3 `round` on the rationals (round half to even); the exact
computable version used for the quantities free of trigonometry. -/
def pyRoundQ (x : ℚ) : ℤ :=
  if Int.fract x = 1 / 2 then 2 * round (x / 2) else round x

/-! ## Scene data model

Blender scene objects, as read by the two exporters.  Scalar positions,
bounds and dimensions are exact rationals; Euler angles are rationals as
stored on the object and are cast to `ℝ` when trigonometry is applied. -/

/-- A 3-vector of rationals (Blender float triple, modelled exactly). -/
abbrev Vec3 := ℚ × ℚ × ℚ

/-- `sollumz_properties.SollumType` (external enum): the declared role
tags consumed by the two exporters. -/
inductive SollumType where
  | ymap_entity_group
  | ymap_box_occluder_group
  | ymap_box_occluder
  | ymap_model_occluder_group
  | ymap_model_occluder
  | ymap_car_generator_group
  | ymap_car_generator
  | drawable
  | drawable_dictionary
  | other
deriving DecidableEq

/-- `sollumz_properties.SollumzGame` (external enum): the two
target-engine variants. -/
inductive SollumzGame where
  | GTA
  | RDR
deriving DecidableEq

/-- Blender `Object.type` tag, as far as the exporters inspect it. -/
inductive BlenderType where
  | ARMATURE
  | MESH
  | EMPTY
deriving DecidableEq

/-- Modelled from the spec: `SOLLUMZ_UI_NAMES` (UI surface, external) —
a human-readable name per role, used only inside diagnostic messages. -/
def SOLLUMZ_UI_NAME : SollumType → String
  | .ymap_box_occluder => "Box Occluder"
  | .ymap_model_occluder => "Model Occluder"
  | .ymap_car_generator => "Car Generator"
  | _ => "Object"

/-- Severity of a diagnostics-channel message (`logger.warning` /
`logger.error`). -/
inductive Severity where
  | warning
  | error
deriving DecidableEq

/-- One diagnostics-channel message. -/
structure Diag where
  sev : Severity
  msg : String
deriving DecidableEq

/-- The per-object entity property bag (`obj.entity_properties`,
declared in the external properties module, read field-by-field by
`entity_from_obj`).  `entity_type` is the declared placement kind
(`"CEntityDef"` / `"CMloInstanceDef"`) recorded in the same bag; the
export routine under verification never reads it. -/
structure EntityProps where
  entity_type : String
  flags : ℤ
  guid : ℤ
  parent_index : ℤ
  lod_dist : ℚ
  child_lod_dist : ℚ
  lod_level : String
  priority_level : String
  num_children : ℤ
  ambient_occlusion_multiplier : ℤ
  artificial_ambient_occlusion : ℤ
  tint_value : ℤ
  blend_age_layer : ℤ
  blend_age_dirt : ℤ
deriving DecidableEq

/-- The per-object car-generator property bag
(`obj.ymap_cargen_properties`). -/
structure CargenProps where
  perpendicular_length : ℚ
  car_model : String
  cargen_flags : ℤ
  body_color_remap_1 : ℤ
  body_color_remap_2 : ℤ
  body_color_remap_3 : ℤ
  body_color_remap_4 : ℤ
  pop_group : ℤ
  livery : ℤ
deriving DecidableEq

/-- Blender mesh data (`obj.data`): vertex coordinates in local space
and one index list per polygon. -/
structure Mesh where
  vertices : List Vec3
  polygons : List (List ℕ)
deriving DecidableEq

/-- A scene object appearing as a grandchild of the map container:
an entity placement, a box occluder, a model occluder or a car
generator.  Blender objects carry every property bag at once, so one
structure covers all four roles.  `bbmin`/`bbmax` are the world-space
bounds that the external `get_extents` collaborator reports for the
object; `matrix_world` is the object-to-world transform applied to mesh
vertices by the occlusion buffer builder. -/
structure ChildObj where
  name : String
  sollum_type : SollumType
  location : Vec3
  rotation_euler : Vec3
  scale : Vec3
  dimensions : Vec3
  bbmin : Vec3
  bbmax : Vec3
  matrix_world : Vec3 → Vec3
  mesh : Mesh
  entity_properties : EntityProps
  ymap_cargen_properties : CargenProps
  model_occl_flags : ℤ

/-- Block metadata on the container
(`obj.ymap_properties.block`). -/
structure BlockProps where
  version : ℤ
  flags : ℤ
  name : String
  exported_by : String
  owner : String
  time : String
deriving DecidableEq

/-- The container property bag (`obj.ymap_properties`).
`content_flags_toggle_has_occl` is the `content_flags_toggle.has_occl`
Blender property that the exporter sets for occluder groups. -/
structure YmapProperties where
  parent : String
  flags : ℤ
  content_flags : ℤ
  content_flags_toggle_has_occl : Bool
  entities_extents_min : Vec3
  entities_extents_max : Vec3
  streaming_extents_min : Vec3
  streaming_extents_max : Vec3
  block : BlockProps
deriving DecidableEq

/-- An immediate child of the map container: a typed group holding the
objects of one content category. -/
structure GroupObj where
  sollum_type : SollumType
  children : List ChildObj

/-- The map container object passed to `ymap_from_object`. -/
structure YmapObj where
  name : String
  ymap_properties : YmapProperties
  children : List GroupObj

/-- The caller-supplied export settings
(`sollumz_preferences.get_export_settings()`, external).  Modelled from
the spec: each category is gated by an independent caller-supplied
enable flag; in the code every flag is an exclusion toggle compared
against `False`, so a category is enabled exactly when its stored flag
is `false`. -/
structure ExportSettings where
  ymap_exclude_entities : Bool
  ymap_box_occluders : Bool
  ymap_model_occluders : Bool
  ymap_car_generators : Bool
deriving DecidableEq

/-! ## Rotations and quaternions

`mathutils` primitives used by the exporter: Euler-XYZ rotation of a
vector, Euler-to-quaternion conversion and quaternion inversion. -/

/-- Rotation about the X axis applied to a vector. -/
noncomputable def rotAxisX (t : ℝ) (v : ℝ × ℝ × ℝ) : ℝ × ℝ × ℝ :=
  (v.1, Real.cos t * v.2.1 - Real.sin t * v.2.2,
   Real.sin t * v.2.1 + Real.cos t * v.2.2)

/-- Rotation about the Y axis applied to a vector. -/
noncomputable def rotAxisY (t : ℝ) (v : ℝ × ℝ × ℝ) : ℝ × ℝ × ℝ :=
  (Real.cos t * v.1 + Real.sin t * v.2.2, v.2.1,
   -Real.sin t * v.1 + Real.cos t * v.2.2)

/-- Rotation about the Z axis applied to a vector. -/
noncomputable def rotAxisZ (t : ℝ) (v : ℝ × ℝ × ℝ) : ℝ × ℝ × ℝ :=
  (Real.cos t * v.1 - Real.sin t * v.2.1,
   Real.sin t * v.1 + Real.cos t * v.2.1, v.2.2)

/-- `mathutils.Vector.rotate(euler)` for Blender's default XYZ order:
rotate about X, then Y, then Z. -/
noncomputable def eulerRotate (e : Vec3) (v : ℝ × ℝ × ℝ) : ℝ × ℝ × ℝ :=
  rotAxisZ (e.2.2 : ℝ) (rotAxisY (e.2.1 : ℝ) (rotAxisX (e.1 : ℝ) v))

/-- A quaternion, as `mathutils.Quaternion` (w, x, y, z). -/
structure Quat where
  w : ℝ
  x : ℝ
  y : ℝ
  z : ℝ

/-- Hamilton product. -/
noncomputable def Quat.mul (a b : Quat) : Quat :=
  ⟨a.w * b.w - a.x * b.x - a.y * b.y - a.z * b.z,
   a.w * b.x + a.x * b.w + a.y * b.z - a.z * b.y,
   a.w * b.y - a.x * b.z + a.y * b.w + a.z * b.x,
   a.w * b.z + a.x * b.y - a.y * b.x + a.z * b.w⟩

/-- Squared norm. -/
noncomputable def Quat.normSq (q : Quat) : ℝ :=
  q.w ^ 2 + q.x ^ 2 + q.y ^ 2 + q.z ^ 2

/-- `mathutils.Quaternion.invert()`: the multiplicative inverse, the
conjugate divided by the squared norm. -/
noncomputable def Quat.invert (q : Quat) : Quat :=
  ⟨q.w / q.normSq, -q.x / q.normSq, -q.y / q.normSq, -q.z / q.normSq⟩

/-- `mathutils.Euler.to_quaternion()` for XYZ order: the product of the
half-angle axis quaternions, Z·Y·X. -/
noncomputable def eulerToQuat (e : Vec3) : Quat :=
  let qx : Quat := ⟨Real.cos ((e.1 : ℝ) / 2), Real.sin ((e.1 : ℝ) / 2), 0, 0⟩
  let qy : Quat := ⟨Real.cos ((e.2.1 : ℝ) / 2), 0, Real.sin ((e.2.1 : ℝ) / 2), 0⟩
  let qz : Quat := ⟨Real.cos ((e.2.2 : ℝ) / 2), 0, 0, Real.sin ((e.2.2 : ℝ) / 2)⟩
  qz.mul (qy.mul qx)

/-! ## Output record types (`cwxml`, external record classes)

Only the fields the exporter writes are modelled; every record starts
from the written fields plus the construction-time defaults the
exporter leaves untouched. -/

/-- `BoxOccluder` record. -/
structure BoxOccluder where
  center_x : ℤ
  center_y : ℤ
  center_z : ℤ
  length : ℤ
  width : ℤ
  height : ℤ
  sin_z : ℤ
  cos_z : ℤ

/-- `OccludeModel` record.  `verts` is the packed byte buffer. -/
structure OccludeModel where
  bmin : Vec3
  bmax : Vec3
  verts : List ℤ
  num_verts_in_bytes : ℕ
  num_tris : ℕ
  data_size : ℕ
  flags : ℤ

/-- `Entity` record.  `type` is the record attribute the class
initializes to its construction default; `entity_from_obj` never
assigns it (it is the value its line 92 branch reads). -/
structure Entity where
  type : String
  archetype_name : String
  flags : ℤ
  guid : ℤ
  position : Vec3
  rotation : Quat
  scale_xy : ℚ
  scale_z : ℚ
  parent_index : ℤ
  lod_dist : ℚ
  child_lod_dist : ℚ
  lod_level : String
  priority_level : String
  num_children : ℤ
  ambient_occlusion_multiplier : ℤ
  artificial_ambient_occlusion : ℤ
  tint_value : ℤ
  blend_age_layer : ℤ
  blend_age_dirt : ℤ

/-- `CarGenerator` record. -/
structure CarGenerator where
  position : Vec3
  orient_x : ℝ
  orient_y : ℝ
  perpendicular_length : ℚ
  car_model : String
  flags : ℤ
  body_color_remap_1 : ℤ
  body_color_remap_2 : ℤ
  body_color_remap_3 : ℤ
  body_color_remap_4 : ℤ
  pop_group : ℤ
  livery : ℤ

/-- Block metadata of the produced `CMapData` record.  `flags` keeps the
construction default `0` unless assigned; `versiflagson` models the
plain Python attribute created by the misspelled assignment
`ymap.block.versiflagson = ...` at `ymapexport.py` line 218 (Python
object attribute assignment silently creates a new attribute). -/
structure CMapDataBlock where
  version : ℤ
  flags : ℤ
  name : String
  exported_by : String
  owner : String
  time : String
  versiflagson : ℤ
deriving DecidableEq

/-- The produced `CMapData` record.  `content_flags_has_occl` —
Modelled from the spec: the `content_flags_toggle.has_occl` property
drives the "has occlusion" bit of the record's content-flags bitfield
through an external property-update callback; the bit is modelled as
this dedicated boolean next to the verbatim-copied `content_flags`
integer. -/
structure CMapData where
  name : String
  parent : String
  flags : ℤ
  content_flags : ℤ
  content_flags_has_occl : Bool
  entities : List Entity
  box_occluders : List BoxOccluder
  occlude_models : List OccludeModel
  car_generators : List CarGenerator
  entities_extents_min : Vec3
  entities_extents_max : Vec3
  streaming_extents_min : Vec3
  streaming_extents_max : Vec3
  block : CMapDataBlock

/-! ## `ymap/ymapexport.py`: the encoding routines -/

/-- Modelled from the spec:
`tools/meshhelper.get_bound_center_from_bounds` is external; the centre
of a bounds pair is its midpoint. -/
def get_bound_center_from_bounds (bbmin bbmax : Vec3) : Vec3 :=
  ((bbmin.1 + bbmax.1) / 2, (bbmin.2.1 + bbmax.2.1) / 2,
   (bbmin.2.2 + bbmax.2.2) / 2)

/-- `box_from_obj` (`ymapexport.py` lines 17–38): quantize the world
centre and the dimensions to quarter units, and encode the X/Y
components of the X-axis unit vector rotated by the object's full Euler
rotation and halved, scaled by 32767. -/
noncomputable def box_from_obj (obj : ChildObj) : BoxOccluder :=
  let center := get_bound_center_from_bounds obj.bbmin obj.bbmax
  let dimensions := obj.dimensions
  let dir0 := eulerRotate obj.rotation_euler (1, 0, 0)
  let dir := (dir0.1 * 0.5, dir0.2.1 * 0.5, dir0.2.2 * 0.5)
  { center_x := pyRoundQ (center.1 * 4)
    center_y := pyRoundQ (center.2.1 * 4)
    center_z := pyRoundQ (center.2.2 * 4)
    length := pyRoundQ (dimensions.1 * 4)
    width := pyRoundQ (dimensions.2.1 * 4)
    height := pyRoundQ (dimensions.2.2 * 4)
    sin_z := pyRound (dir.1 * 32767)
    cos_z := pyRound (dir.2.1 * 32767) }

/-- Modelled from the spec: the 32-bit IEEE-754 serialization performed
by `numpy.float32.tobytes` is external to the exporter logic; it is
modelled as an opaque 4-byte-per-scalar little-endian-style encoding —
every property claimed of the buffer depends only on the byte count per
scalar. -/
def f32le (x : ℚ) : List ℤ :=
  [x.num % 256, x.num / 256 % 256, (x.den : ℤ) % 256, (x.den : ℤ) / 256 % 256]

/-- The 12 bytes of one vertex position (three 32-bit floats). -/
def vec3Bytes (v : Vec3) : List ℤ :=
  f32le v.1 ++ f32le v.2.1 ++ f32le v.2.2

/-- `occlusion_model_obj_get_data_buffer` (`ymapexport.py` lines
50–62): world-space vertex positions as 32-bit floats in vertex order,
followed by one 8-bit integer per polygon-vertex index in polygon
order (`numpy.uint8` wraps modulo 256). -/
def occlusion_model_obj_get_data_buffer (obj : ChildObj) : List ℤ :=
  obj.mesh.vertices.flatMap (fun v => vec3Bytes (obj.matrix_world v)) ++
    (obj.mesh.polygons.flatMap id).map (fun i => Int.ofNat (i % 256))

/-- Fan triangulation spokes: triangles `(a, pᵢ, pᵢ₊₁)` around the
anchor vertex `a`. -/
def fanFrom (a : ℕ) : List ℕ → List (List ℕ)
  | b :: c :: rest => [a, b, c] :: fanFrom a (c :: rest)
  | _ => []

/-- Fan triangulation of one polygon's index list. -/
def fanTriangles : List ℕ → List (List ℕ)
  | a :: rest => fanFrom a rest
  | [] => []

/-- Modelled from the spec: `triangulate_obj` delegates to the external
mesh-processing primitive `bpy.ops.mesh.quads_convert_to_tris`, an
in-place polygon-to-triangle conversion; modelled as fan triangulation
of every polygon.  `model_from_obj` and `ymap_from_object` take the
primitive as an explicit function parameter; this definition is the
canonical instantiation. -/
def triangulate_mesh (m : Mesh) : Mesh :=
  { m with polygons := m.polygons.flatMap fanTriangles }

/-- `model_from_obj` (`ymapexport.py` lines 65–79): triangulate the
mesh in place, build the packed buffer, and assert
`data_size == num_verts_in_bytes + face_count * 3`; an assertion
failure is a hard error (`Except.error`), and the in-place mesh
mutation is returned next to the outcome. -/
def model_from_obj (tri : Mesh → Mesh) (obj : ChildObj) :
    ChildObj × Except String OccludeModel :=
  let obj := { obj with mesh := tri obj.mesh }
  let verts := occlusion_model_obj_get_data_buffer obj
  let num_verts_in_bytes := obj.mesh.vertices.length * 12
  let face_count := obj.mesh.polygons.length
  let model : OccludeModel :=
    { bmin := obj.bbmin
      bmax := obj.bbmax
      verts := verts
      num_verts_in_bytes := num_verts_in_bytes
      num_tris := face_count ||| 0x8000
      data_size := verts.length
      flags := obj.model_occl_flags }
  (obj,
    if model.data_size = num_verts_in_bytes + face_count * 3 then
      Except.ok model
    else Except.error "AssertionError")

/-- `entity_from_obj` (`ymapexport.py` lines 82–111).  The routine
first rewrites `obj.name` in place (lower-cased, `" (not found)"`
markers stripped); the updated object is returned next to the record.
`entity_default_type` is the construction default of the external
`Entity` record class's `type` attribute: the routine never assigns
`entity.type`, so its line 92 branch reads that default, never the
object's own declared kind.  `game` is the ambient
`import_export_current_game` state. -/
noncomputable def entity_from_obj (game : SollumzGame) (entity_default_type : String)
    (obj : ChildObj) : ChildObj × Entity :=
  let obj := { obj with name := pyNormalizeEntityName obj.name }
  let q := eulerToQuat obj.rotation_euler
  let rotation := if entity_default_type ≠ "CMloInstanceDef" then q.invert else q
  (obj,
    { type := entity_default_type
      archetype_name := remove_number_suffix obj.name
      flags := obj.entity_properties.flags
      guid := obj.entity_properties.guid
      position := obj.location
      rotation := rotation
      scale_xy := obj.scale.1
      scale_z := obj.scale.2.2
      parent_index := obj.entity_properties.parent_index
      lod_dist := obj.entity_properties.lod_dist
      child_lod_dist := obj.entity_properties.child_lod_dist
      lod_level := pyReplace "SOLLUMZ_" "" (pyUpper obj.entity_properties.lod_level)
      priority_level := pyReplace "SOLLUMZ_" "" (pyUpper obj.entity_properties.priority_level)
      num_children := obj.entity_properties.num_children
      ambient_occlusion_multiplier := obj.entity_properties.ambient_occlusion_multiplier
      artificial_ambient_occlusion := obj.entity_properties.artificial_ambient_occlusion
      tint_value := obj.entity_properties.tint_value
      blend_age_layer :=
        if game = SollumzGame.RDR then obj.entity_properties.blend_age_layer else 0
      blend_age_dirt :=
        if game = SollumzGame.RDR then obj.entity_properties.blend_age_dirt else 0 })

/-- `calculate_cargen_orient` (`ymapexport.py` lines 132–136):
`(5·sin(−yaw), 5·cos(−yaw))`. -/
noncomputable def calculate_cargen_orient (obj : ChildObj) : ℝ × ℝ :=
  let angle := (obj.rotation_euler.2.2 : ℝ) * (-1)
  (5 * Real.sin angle, 5 * Real.cos angle)

/-- `cargen_from_obj` (`ymapexport.py` lines 113–129). -/
noncomputable def cargen_from_obj (obj : ChildObj) : CarGenerator :=
  let orient := calculate_cargen_orient obj
  { position := obj.location
    orient_x := orient.1
    orient_y := orient.2
    perpendicular_length := obj.ymap_cargen_properties.perpendicular_length
    car_model := obj.ymap_cargen_properties.car_model
    flags := obj.ymap_cargen_properties.cargen_flags
    body_color_remap_1 := obj.ymap_cargen_properties.body_color_remap_1
    body_color_remap_2 := obj.ymap_cargen_properties.body_color_remap_2
    body_color_remap_3 := obj.ymap_cargen_properties.body_color_remap_3
    body_color_remap_4 := obj.ymap_cargen_properties.body_color_remap_4
    pop_group := obj.ymap_cargen_properties.pop_group
    livery := obj.ymap_cargen_properties.livery }

/-! ## `ymap_from_object` (`ymapexport.py` lines 139–224)

The child loop is decomposed into per-category child processors; the
independent `if` branches of the loop are mutually exclusive because a
group carries exactly one role tag. -/

/-- One box-occluder group member (`ymapexport.py` lines 154–165):
reject X/Y tilt beyond tolerance with an error, reject a wrong role
with a warning, otherwise encode. -/
noncomputable def process_box_child (c : ChildObj) :
    List BoxOccluder × List Diag :=
  if |c.rotation_euler.1| > 0.01 ∨ |c.rotation_euler.2.1| > 0.01 then
    ([], [⟨Severity.error,
      "Box occluders only support Z-axis rotation. Skipping " ++ c.name ++
        " due to X/Y rotation."⟩])
  else if c.sollum_type = SollumType.ymap_box_occluder then
    ([box_from_obj c], [])
  else
    ([], [⟨Severity.warning,
      "Object " ++ c.name ++ " will be skipped because it is not a " ++
        SOLLUMZ_UI_NAME SollumType.ymap_box_occluder ++ " type."⟩])

/-- The records of a box-occluder group's children, in order. -/
noncomputable def box_results (cs : List ChildObj) : List BoxOccluder :=
  cs.flatMap (fun c => (process_box_child c).1)

/-- The diagnostics of a box-occluder group's children, in order. -/
noncomputable def box_diags (cs : List ChildObj) : List Diag :=
  cs.flatMap (fun c => (process_box_child c).2)

/-- One car-generator group member (`ymapexport.py` lines 190–200):
same shape as the box case. -/
noncomputable def process_cargen_child (c : ChildObj) :
    List CarGenerator × List Diag :=
  if |c.rotation_euler.1| > 0.01 ∨ |c.rotation_euler.2.1| > 0.01 then
    ([], [⟨Severity.error,
      "Car generators only support Z-axis rotation. Skipping " ++ c.name ++
        " due to X/Y rotation."⟩])
  else if c.sollum_type = SollumType.ymap_car_generator then
    ([cargen_from_obj c], [])
  else
    ([], [⟨Severity.warning,
      "Object " ++ c.name ++ " will be skipped because it is not a " ++
        SOLLUMZ_UI_NAME SollumType.ymap_car_generator ++ " type."⟩])

/-- The records of a car-generator group's children, in order. -/
noncomputable def cargen_results (cs : List ChildObj) : List CarGenerator :=
  cs.flatMap (fun c => (process_cargen_child c).1)

/-- The diagnostics of a car-generator group's children, in order. -/
noncomputable def cargen_diags (cs : List ChildObj) : List Diag :=
  cs.flatMap (fun c => (process_cargen_child c).2)

/-- The model-occluder group loop (`ymapexport.py` lines 171–182):
wrong role or a vertex count above 256 is a warning-and-skip; an
assertion failure inside `model_from_obj` propagates and aborts the
whole export, so the loop is sequenced in `Except`.  Returns the
(possibly triangulated) children, the records and the diagnostics. -/
def process_model_children (tri : Mesh → Mesh) :
    List ChildObj → Except String (List ChildObj × List OccludeModel × List Diag)
  | [] => Except.ok ([], [], [])
  | c :: cs =>
    if c.sollum_type = SollumType.ymap_model_occluder then
      if c.mesh.vertices.length > 256 then do
        let rest ← process_model_children tri cs
        Except.ok (c :: rest.1, rest.2.1,
          ⟨Severity.warning,
            "Object " ++ c.name ++
              " has too many vertices and will be skipped. It can not have more than 256 vertices."⟩
            :: rest.2.2)
      else do
        let m ← (model_from_obj tri c).2
        let rest ← process_model_children tri cs
        Except.ok ((model_from_obj tri c).1 :: rest.1, m :: rest.2.1, rest.2.2)
    else do
      let rest ← process_model_children tri cs
      Except.ok (c :: rest.1, rest.2.1,
        ⟨Severity.warning,
          "Object " ++ c.name ++ " will be skipped because it is not a " ++
            SOLLUMZ_UI_NAME SollumType.ymap_model_occluder ++ " type."⟩
          :: rest.2.2)

/-- Everything one group child contributes to the export. -/
structure GroupResult where
  updated : GroupObj
  entities : List Entity
  boxes : List BoxOccluder
  models : List OccludeModel
  cargens : List CarGenerator
  occl_mark : Bool
  log : List Diag

/-- The contribution of a group whose category branch is not taken:
its children are not visited at all. -/
def GroupResult.neutral (g : GroupObj) : GroupResult :=
  ⟨g, [], [], [], [], false, []⟩

/-- One iteration of the `ymap_from_object` child loop
(`ymapexport.py` lines 144–200): each category is gated on its
exclusion flag being `False` and on the group's role tag; the box and
model branches mark the has-occlusion toggle before looking at any
child. -/
noncomputable def process_group (tri : Mesh → Mesh) (game : SollumzGame)
    (entity_default_type : String) (s : ExportSettings) (g : GroupObj) :
    Except String GroupResult :=
  if s.ymap_exclude_entities = false ∧ g.sollum_type = SollumType.ymap_entity_group then
    Except.ok
      ⟨{ g with children :=
          (g.children.map (fun c => (entity_from_obj game entity_default_type c).1)) },
        g.children.map (fun c => (entity_from_obj game entity_default_type c).2),
        [], [], [], false, []⟩
  else if s.ymap_box_occluders = false ∧ g.sollum_type = SollumType.ymap_box_occluder_group then
    Except.ok ⟨g, [], box_results g.children, [], [], true, box_diags g.children⟩
  else if s.ymap_model_occluders = false ∧ g.sollum_type = SollumType.ymap_model_occluder_group then
    (process_model_children tri g.children).map
      (fun r => ⟨{ g with children := r.1 }, [], [], r.2.1, [], true, r.2.2⟩)
  else if s.ymap_car_generators = false ∧ g.sollum_type = SollumType.ymap_car_generator_group then
    Except.ok ⟨g, [], [], [], cargen_results g.children, false, cargen_diags g.children⟩
  else
    Except.ok (GroupResult.neutral g)

/-- The sequenced child loop: groups are processed in order and a hard
error from a delegated encoding routine aborts the remainder. -/
noncomputable def process_children (tri : Mesh → Mesh) (game : SollumzGame)
    (entity_default_type : String) (s : ExportSettings) :
    List GroupObj → Except String GroupResult
  | [] => Except.ok ⟨⟨SollumType.other, []⟩, [], [], [], [], false, []⟩
  | g :: gs => do
    let r ← process_group tri game entity_default_type s g
    let rest ← process_children tri game entity_default_type s gs
    Except.ok ⟨⟨SollumType.other, []⟩, r.entities ++ rest.entities,
      r.boxes ++ rest.boxes, r.models ++ rest.models,
      r.cargens ++ rest.cargens, r.occl_mark || rest.occl_mark,
      r.log ++ rest.log⟩

/-- The per-group updated children, in order (the `updated` components
of the loop, kept apart from the accumulated record lists). -/
noncomputable def updated_groups (tri : Mesh → Mesh) (game : SollumzGame)
    (entity_default_type : String) (s : ExportSettings) :
    List GroupObj → Except String (List GroupObj)
  | [] => Except.ok []
  | g :: gs => do
    let r ← process_group tri game entity_default_type s g
    let rest ← updated_groups tri game entity_default_type s gs
    Except.ok (r.updated :: rest)

/-- The two extents pairs written back by the external
`generate_ymap_extents` collaborator. -/
structure YmapExtents where
  entities_extents_min : Vec3
  entities_extents_max : Vec3
  streaming_extents_min : Vec3
  streaming_extents_max : Vec3
deriving DecidableEq

/-- The tail of `ymap_from_object` after the child loop
(`ymapexport.py` lines 206–224): toggle write-back, extents
recomputation and record assembly from the loop's accumulation. -/
noncomputable def assemble_ymap (gen_extents : YmapObj → YmapExtents)
    (obj : YmapObj) (acc : GroupResult) (gs : List GroupObj) :
    CMapData × YmapObj × List Diag :=
  let props := obj.ymap_properties
  let toggled := props.content_flags_toggle_has_occl || acc.occl_mark
  let obj1 : YmapObj :=
    { obj with
      children := gs
      ymap_properties := { props with content_flags_toggle_has_occl := toggled } }
  let ext := gen_extents obj1
  let obj2 : YmapObj :=
    { obj1 with ymap_properties :=
      { obj1.ymap_properties with
        entities_extents_min := ext.entities_extents_min
        entities_extents_max := ext.entities_extents_max
        streaming_extents_min := ext.streaming_extents_min
        streaming_extents_max := ext.streaming_extents_max } }
  let ymap : CMapData :=
    { name := remove_number_suffix obj.name
      parent := props.parent
      flags := props.flags
      content_flags := props.content_flags
      content_flags_has_occl := toggled
      entities := acc.entities
      box_occluders := acc.boxes
      occlude_models := acc.models
      car_generators := acc.cargens
      entities_extents_min := ext.entities_extents_min
      entities_extents_max := ext.entities_extents_max
      streaming_extents_min := ext.streaming_extents_min
      streaming_extents_max := ext.streaming_extents_max
      block :=
        { version := props.block.version
          flags := 0
          name := props.block.name
          exported_by := props.block.exported_by
          owner := props.block.owner
          time := props.block.time
          versiflagson := props.block.flags } }
  (ymap, obj2, acc.log)

/-- `ymap_from_object` (`ymapexport.py` lines 139–224).  `tri` is the
external triangulation primitive, `gen_extents` the external extents
collaborator, `game` the ambient game state, `entity_default_type` the
`Entity` record class's `type` default.  Returns the record, the
mutated container and the emitted diagnostics, or the propagated hard
error. -/
noncomputable def ymap_from_object (tri : Mesh → Mesh)
    (gen_extents : YmapObj → YmapExtents) (game : SollumzGame)
    (entity_default_type : String) (s : ExportSettings) (obj : YmapObj) :
    Except String (CMapData × YmapObj × List Diag) := do
  let acc ← process_children tri game entity_default_type s obj.children
  let gs ← updated_groups tri game entity_default_type s obj.children
  Except.ok (assemble_ymap gen_extents obj acc gs)

/-! ## `ydd/yddexport.py`: the drawable-set exporter -/

/-- A scene object on the drawable-dictionary side: the container or
one of its immediate children. -/
structure YObj where
  name : String
  obj_type : BlenderType
  sollum_type : SollumType
  sollum_game_type : SollumzGame
  hash : String
deriving DecidableEq

/-- The drawable record produced by the external
`create_drawable_xml` collaborator, restricted to the fields this
exporter touches: the name (suffixed here), the already-assigned hash
identifier, and the optional skeleton payload. -/
structure DrawableXml where
  name : String
  hash : String
  skeleton : Option String
deriving DecidableEq

/-- `find_ydd_armature` (`yddexport.py` lines 59–63): the first
armature-typed immediate child, if any. -/
def find_ydd_armature (children : List YObj) : Option YObj :=
  children.find? (fun c => c.obj_type = BlenderType.ARMATURE)

/-- The shared reference armature located at entry
(`yddexport.py` lines 28–29): the container itself when it is an
armature object, otherwise the first armature-typed immediate child. -/
def ydd_reference_armature (container : YObj) (children : List YObj) : Option YObj :=
  if container.obj_type ≠ BlenderType.ARMATURE then find_ydd_armature children
  else some container

/-- The armature binding passed to the drawable-encoding collaborator
for one child (`yddexport.py` lines 35–38): the shared reference
armature for a non-armature child, and `None` for an armature child. -/
def ydd_child_armature_binding (container : YObj) (children : List YObj)
    (child : YObj) : Option YObj :=
  if child.obj_type ≠ BlenderType.ARMATURE then
    ydd_reference_armature container children
  else none

/-- The name suffixing and conditional skeleton drop applied to one
encoded drawable (`yddexport.py` lines 41–44). -/
def ydd_post (exclude_skeleton : Bool) (child : YObj) (dx : DrawableXml) :
    DrawableXml :=
  let dx := { dx with name := dx.name ++ ".#dd" }
  if exclude_skeleton || child.obj_type ≠ BlenderType.ARMATURE then
    { dx with skeleton := none }
  else dx

/-- `get_hash` (`yddexport.py` lines 66–67): the 32-bit name hash of
the base name (the substring before the first period).  The jenkhash
primitive itself is external and is passed in as `name_to_hash`. -/
def get_hash (name_to_hash : String → ℕ) (item : DrawableXml) : ℕ :=
  name_to_hash (baseName item.name)

/-- `rdr_get_hash_literal` (`yddexport.py` lines 69–70): the drawable's
already-assigned hash identifier parsed as a literal hash value by the
external `name_to_hash_literal` primitive. -/
def rdr_get_hash_literal (name_to_hash_literal : String → ℕ) (item : DrawableXml) : ℕ :=
  name_to_hash_literal item.hash

/-- `create_ydd_xml` (`yddexport.py` lines 20–56).  `create_drawable_xml`
is the external drawable-encoding collaborator; `name_to_hash` and
`name_to_hash_literal` are the external jenkhash primitives.  Children
not of the drawable role are skipped; each drawable child is encoded
with its armature binding, suffixed, conditionally stripped of its
skeleton, and the collection is sorted ascending by the
variant-dependent 32-bit hash key.  Python `list.sort` is stable and
ascending; it is modelled by insertion sort, which is stable and, for a
total transitive key order, produces the same sorted sequence. -/
def create_ydd_xml (create_drawable_xml : YObj → Option YObj → DrawableXml)
    (name_to_hash name_to_hash_literal : String → ℕ)
    (ydd_obj : YObj) (children : List YObj) (exclude_skeleton : Bool) :
    SollumzGame × List DrawableXml :=
  let game := ydd_obj.sollum_game_type
  let drawables := children.filterMap (fun child =>
    if child.sollum_type ≠ SollumType.drawable then none
    else
      some (ydd_post exclude_skeleton child
        (create_drawable_xml child (ydd_child_armature_binding ydd_obj children child))))
  match game with
  | SollumzGame.GTA =>
    (game, drawables.insertionSort
      (fun a b => get_hash name_to_hash a ≤ get_hash name_to_hash b))
  | SollumzGame.RDR =>
    (game, drawables.insertionSort
      (fun a b =>
        rdr_get_hash_literal name_to_hash_literal a ≤
          rdr_get_hash_literal name_to_hash_literal b))

/-! ## Specification-side definitions

Each follows the spec's words, for comparison against the definitions
embedded from the source. -/

/-- The spec's entity-rotation rule: the Euler-derived quaternion,
inverted unless the OBJECT's declared placement kind is the
`"CMloInstanceDef"` variant. -/
noncomputable def specEntityRotation (obj : ChildObj) : Quat :=
  let q := eulerToQuat obj.rotation_euler
  if obj.entity_properties.entity_type ≠ "CMloInstanceDef" then q.invert else q

/-- The spec's box-occluder orientation rule: the encoded pair is
`(round(dir.x*32767), round(dir.y*32767))` for
`dir = rotate(Vector(0.5, 0, 0), rz)` — the vector `(0.5, 0, 0)`
rotated by the Z-axis rotation alone. -/
noncomputable def specBoxOrientation (rz : ℚ) : ℤ × ℤ :=
  let dir := rotAxisZ (rz : ℝ) (0.5, 0, 0)
  (pyRound (dir.1 * 32767), pyRound (dir.2.1 * 32767))

/-- The claim's armature-binding rule for the drawable-set exporter:
the child's own armature when the child is itself an armature object,
otherwise the shared reference armature. -/
def specYddArmatureBinding (container : YObj) (children : List YObj)
    (child : YObj) : Option YObj :=
  if child.obj_type = BlenderType.ARMATURE then some child
  else ydd_reference_armature container children

/-! ## Concrete fixtures used by witnesses and counterexamples -/

/-- A neutral entity property bag. -/
def entityProps0 : EntityProps :=
  ⟨"CEntityDef", 0, 0, 0, 0, 0, "sollumz_high", "sollumz_normal", 0, 0, 0, 0, 0, 0⟩

/-- A neutral car-generator property bag. -/
def cargenProps0 : CargenProps := ⟨0, "", 0, 0, 0, 0, 0, 0, 0⟩

/-- A neutral grandchild object. -/
def child0 : ChildObj :=
  { name := "obj"
    sollum_type := SollumType.other
    location := (0, 0, 0)
    rotation_euler := (0, 0, 0)
    scale := (1, 1, 1)
    dimensions := (1, 1, 1)
    bbmin := (0, 0, 0)
    bbmax := (1, 1, 1)
    matrix_world := fun v => v
    mesh := ⟨[], []⟩
    entity_properties := entityProps0
    ymap_cargen_properties := cargenProps0
    model_occl_flags := 0 }

/-- Neutral block metadata with a non-default flags value. -/
def blockProps0 : BlockProps := ⟨1, 7, "blk", "me", "own", "now"⟩

/-- Neutral container properties. -/
def ymapProps0 : YmapProperties :=
  { parent := "par"
    flags := 3
    content_flags := 5
    content_flags_toggle_has_occl := false
    entities_extents_min := (0, 0, 0)
    entities_extents_max := (0, 0, 0)
    streaming_extents_min := (0, 0, 0)
    streaming_extents_max := (0, 0, 0)
    block := blockProps0 }

/-- An extents collaborator returning fixed extents. -/
def genExtents0 : YmapObj → YmapExtents :=
  fun _ => ⟨(1, 2, 3), (4, 5, 6), (7, 8, 9), (10, 11, 12)⟩

/-- Export settings with every category enabled (no exclusion). -/
def settings0 : ExportSettings := ⟨false, false, false, false⟩

/-- A 256-vertex mesh with a polygon reaching index 255: the boundary
case the vertex-count check admits. -/
def childW10 : ChildObj :=
  { child0 with mesh := ⟨List.replicate 256 ((0 : ℚ), (0 : ℚ), (0 : ℚ)), [[0, 255, 1]]⟩ }

/-- A valid 3-vertex, one-triangle model-occluder mesh. -/
def childW5 : ChildObj :=
  { child0 with mesh := ⟨[(0, 0, 0), (1, 0, 0), (0, 1, 0)], [[0, 1, 2]]⟩ }

/-- A placement object declared as an instance definition, carrying a
non-trivial rotation. -/
def objCMlo : ChildObj :=
  { child0 with
    rotation_euler := (2, 0, 0)
    entity_properties := { entityProps0 with entity_type := "CMloInstanceDef" } }

/-- The same placement object declared as a regular entity
definition. -/
def objCEnt : ChildObj := { child0 with rotation_euler := (2, 0, 0) }

/-- An entity placement whose name carries the import-time diagnostic
marker and upper-case letters. -/
def objNF : ChildObj := { child0 with name := "Tree (not found)" }

/-- An armature-typed drawable-dictionary container. -/
def contA : YObj :=
  ⟨"dict", BlenderType.ARMATURE, SollumType.drawable_dictionary, SollumzGame.GTA, ""⟩

/-- An armature-typed drawable child. -/
def childA : YObj := ⟨"dr", BlenderType.ARMATURE, SollumType.drawable, SollumzGame.GTA, "h"⟩

/-- A non-armature drawable-dictionary container fixture. -/
def yddContW : YObj :=
  ⟨"dict", BlenderType.EMPTY, SollumType.drawable_dictionary, SollumzGame.GTA, ""⟩

/-- A drawable child fixture with a given name and hash. -/
def yddChild (n h : String) : YObj :=
  ⟨n, BlenderType.MESH, SollumType.drawable, SollumzGame.GTA, h⟩

/-- A trivial drawable-encoding collaborator for witnesses. -/
def encW : YObj → Option YObj → DrawableXml := fun c _ => ⟨c.name, c.hash, some "skel"⟩

/-- A deterministic stand-in for the external name-hash primitive. -/
def hashLen : String → ℕ := fun s => s.length

/-- A box-occluder group member with an X tilt beyond tolerance. -/
def childTilt : ChildObj :=
  { child0 with
    sollum_type := SollumType.ymap_box_occluder
    rotation_euler := (1, 0, 0) }

/-- Settings with every category excluded. -/
def settingsAll : ExportSettings := ⟨true, true, true, true⟩

/-- An entity group holding one placement. -/
def gEnt : GroupObj := ⟨SollumType.ymap_entity_group, [child0]⟩

/-- A box-occluder group holding one tilted member. -/
def gBoxTilt : GroupObj := ⟨SollumType.ymap_box_occluder_group, [childTilt]⟩

/-- An empty box-occluder group: its presence alone marks the
has-occlusion flag. -/
def containerBoxEmpty : YmapObj :=
  ⟨"cnt4", ymapProps0, [⟨SollumType.ymap_box_occluder_group, []⟩]⟩

/-- A box occluder tilted about Y by exactly the tolerance `0.01`,
with no Z rotation. -/
def objBoxTiltY : ChildObj :=
  { child0 with
    sollum_type := SollumType.ymap_box_occluder
    rotation_euler := (0, 1 / 100, 0) }

/-- A box occluder with no rotation at all. -/
def objBoxFlat : ChildObj :=
  { child0 with sollum_type := SollumType.ymap_box_occluder }

/-! ## Helper lemmas -/

theorem length_vec3Bytes (v : Vec3) : (vec3Bytes v).length = 12 := rfl

theorem length_flatMap_twelve {α : Type} (f : α → List ℤ)
    (h : ∀ a, (f a).length = 12) (l : List α) :
    (l.flatMap f).length = l.length * 12 := by
  induction l with
  | nil => rfl
  | cons a l ih => simp [List.flatMap_cons, h, ih, Nat.succ_mul, Nat.add_comm]

/-- Buffer layout: 12 bytes per vertex, then one byte per
polygon-vertex index. -/
theorem data_buffer_length (obj : ChildObj) :
    (occlusion_model_obj_get_data_buffer obj).length =
      obj.mesh.vertices.length * 12 + (obj.mesh.polygons.flatMap id).length := by
  unfold occlusion_model_obj_get_data_buffer
  rw [List.length_append, List.length_map,
    length_flatMap_twelve _ (fun v => length_vec3Bytes _)]

theorem sum_map_three (l : List (List ℕ)) (h : ∀ p ∈ l, p.length = 3) :
    (l.flatMap id).length = l.length * 3 := by
  induction l with
  | nil => rfl
  | cons p l ih =>
    have hp := h p (by simp)
    have hrest := ih fun q hq => h q (by simp [hq])
    simp only [List.flatMap_cons, List.length_append, List.length_cons, id_eq] at *
    omega

/-! ## Claims -/

/-- C10: for every model-occluder mesh admitted by the vertex-count
check (which skips only meshes with strictly more than 256 vertices, so
256 vertices are admitted), every polygon-vertex index is at most 255,
and the 8-bit conversion in the packed index buffer preserves each
index exactly — the buffer equals the one built with no modulo-256
wraparound at all. -/
theorem C10_admitted_mesh_index_bytes_exact (obj : ChildObj)
    (hgate : ¬ obj.mesh.vertices.length > 256)
    (hvalid : ∀ i ∈ obj.mesh.polygons.flatMap id, i < obj.mesh.vertices.length) :
    (∀ i ∈ obj.mesh.polygons.flatMap id, i ≤ 255 ∧ i % 256 = i) ∧
    occlusion_model_obj_get_data_buffer obj =
      obj.mesh.vertices.flatMap (fun v => vec3Bytes (obj.matrix_world v)) ++
        (obj.mesh.polygons.flatMap id).map (fun i => Int.ofNat i) := by
  constructor
  · intro i hi
    have h1 := hvalid i hi
    exact ⟨by omega, Nat.mod_eq_of_lt (by omega)⟩
  · have hmap : (obj.mesh.polygons.flatMap id).map (fun i => Int.ofNat (i % 256)) =
        (obj.mesh.polygons.flatMap id).map (fun i => Int.ofNat i) := by
      apply List.map_congr_left
      intro i hi
      have h1 := hvalid i hi
      rw [Nat.mod_eq_of_lt (by omega)]
    unfold occlusion_model_obj_get_data_buffer
    rw [hmap]

set_option maxRecDepth 8000 in
theorem C10_admitted_mesh_index_bytes_exact_witness :
    ¬ childW10.mesh.vertices.length > 256 ∧
    ∀ i ∈ childW10.mesh.polygons.flatMap id, i ≤ 255 ∧ i % 256 = i :=
  ⟨by decide, (C10_admitted_mesh_index_bytes_exact childW10 (by decide) (by decide)).1⟩

/-- C5: for every model-occluder input, the constructed record
satisfies `len(buffer) = vertexCount*12 + polygonCount*3`, the asserted
invariant `data_size = num_verts_in_bytes + face_count*3` holds
whenever a record is returned, a violation of that equality (one only a
non-triangle polygon surviving triangulation can cause) raises the hard
assertion error instead of returning a record, and a fully triangulated
mesh always yields a record. -/
theorem C5_model_occluder_buffer_invariant (tri : Mesh → Mesh) (obj : ChildObj) :
    (∀ r, (model_from_obj tri obj).2 = Except.ok r →
        r.verts.length =
          (tri obj.mesh).vertices.length * 12 + (tri obj.mesh).polygons.length * 3 ∧
        r.data_size = r.num_verts_in_bytes + (tri obj.mesh).polygons.length * 3) ∧
    ((∃ e, (model_from_obj tri obj).2 = Except.error e) ↔
        ((tri obj.mesh).polygons.flatMap id).length ≠ (tri obj.mesh).polygons.length * 3) ∧
    ((∀ p ∈ (tri obj.mesh).polygons, p.length = 3) →
        ∃ r, (model_from_obj tri obj).2 = Except.ok r) := by
  have hbuf : (occlusion_model_obj_get_data_buffer { obj with mesh := tri obj.mesh }).length =
      (tri obj.mesh).vertices.length * 12 + ((tri obj.mesh).polygons.flatMap id).length := by
    simpa using data_buffer_length { obj with mesh := tri obj.mesh }
  have hsplit : (model_from_obj tri obj).2 =
      if (occlusion_model_obj_get_data_buffer { obj with mesh := tri obj.mesh }).length =
          (tri obj.mesh).vertices.length * 12 + (tri obj.mesh).polygons.length * 3 then
        Except.ok
          { bmin := obj.bbmin
            bmax := obj.bbmax
            verts := occlusion_model_obj_get_data_buffer { obj with mesh := tri obj.mesh }
            num_verts_in_bytes := (tri obj.mesh).vertices.length * 12
            num_tris := (tri obj.mesh).polygons.length ||| 0x8000
            data_size :=
              (occlusion_model_obj_get_data_buffer { obj with mesh := tri obj.mesh }).length
            flags := obj.model_occl_flags }
      else Except.error "AssertionError" := rfl
  by_cases hc :
      ((tri obj.mesh).polygons.flatMap id).length = (tri obj.mesh).polygons.length * 3
  · have hok := hsplit.trans (if_pos (by rw [hbuf, hc]))
    refine ⟨?_, iff_of_false ?_ (fun hne => hne hc), fun _ => ⟨_, hok⟩⟩
    · intro r hr
      injection (hok.symm.trans hr) with h
      subst h
      exact ⟨by rw [hbuf, hc], by rw [hbuf, hc]⟩
    · rintro ⟨e, he⟩
      rw [hok] at he
      simp at he
  · have herr := hsplit.trans (if_neg (by rw [hbuf]; omega))
    exact ⟨fun r hr => absurd (herr.symm.trans hr) (by simp),
      iff_of_true ⟨_, herr⟩ hc,
      fun hall => absurd (sum_map_three _ hall) hc⟩

theorem C5_model_occluder_buffer_invariant_witness :
    ∃ r, (model_from_obj triangulate_mesh childW5).2 = Except.ok r ∧
      r.verts.length = 3 * 12 + 1 * 3 := by
  have h := C5_model_occluder_buffer_invariant triangulate_mesh childW5
  obtain ⟨r, hr⟩ := h.2.2 (by decide)
  exact ⟨r, hr, ((h.1 r hr).1).trans (by decide)⟩

/-- Inversion principle for a successful map export: the child loop and
the per-group container updates both succeed and the result is the
assembly of their outcomes. -/
theorem ymap_from_object_ok_iff {tri : Mesh → Mesh}
    {gx : YmapObj → YmapExtents} {game : SollumzGame} {d : String}
    {s : ExportSettings} {obj : YmapObj} {t : CMapData × YmapObj × List Diag} :
    ymap_from_object tri gx game d s obj = Except.ok t ↔
      ∃ acc gs, process_children tri game d s obj.children = Except.ok acc ∧
        updated_groups tri game d s obj.children = Except.ok gs ∧
        t = assemble_ymap gx obj acc gs := by
  constructor
  · intro ht
    unfold ymap_from_object at ht
    cases hpc : process_children tri game d s obj.children with
    | error e => rw [hpc] at ht; simp [Bind.bind, Except.bind] at ht
    | ok acc =>
      rw [hpc] at ht
      cases hug : updated_groups tri game d s obj.children with
      | error e => rw [hug] at ht; simp [Bind.bind, Except.bind] at ht
      | ok gs =>
        rw [hug] at ht
        simp only [Bind.bind, Except.bind] at ht
        exact ⟨acc, gs, rfl, rfl, (Except.ok.inj ht).symm⟩
  · rintro ⟨acc, gs, hpc, hug, rfl⟩
    unfold ymap_from_object
    rw [hpc, hug]
    rfl

/-- C3: a successful map export copies five of the six block metadata
fields verbatim, but the block flags value is written to the stray
attribute `versiflagson` created by the misspelled assignment at
`ymapexport.py` line 218, while the record's own `flags` field keeps
its construction default `0`. -/
theorem C3_block_metadata_flags_lost (tri : Mesh → Mesh)
    (gx : YmapObj → YmapExtents) (game : SollumzGame) (d : String)
    (s : ExportSettings) (obj : YmapObj) :
    ∀ t, ymap_from_object tri gx game d s obj = Except.ok t →
      t.1.block =
        { version := obj.ymap_properties.block.version
          flags := 0
          name := obj.ymap_properties.block.name
          exported_by := obj.ymap_properties.block.exported_by
          owner := obj.ymap_properties.block.owner
          time := obj.ymap_properties.block.time
          versiflagson := obj.ymap_properties.block.flags } := by
  intro t ht
  obtain ⟨acc, gs, _, _, rfl⟩ := ymap_from_object_ok_iff.mp ht
  rfl

theorem C3_block_metadata_flags_lost_witness :
    ∃ t, ymap_from_object id genExtents0 SollumzGame.GTA "CEntityDef" settings0
        ⟨"cnt", ymapProps0, []⟩ = Except.ok t ∧
      t.1.block = ⟨1, 0, "blk", "me", "own", "now", 7⟩ ∧
      t.1.block.flags ≠ blockProps0.flags := by
  refine ⟨_, rfl, ?_, ?_⟩
  · exact (C3_block_metadata_flags_lost id genExtents0 SollumzGame.GTA "CEntityDef"
      settings0 ⟨"cnt", ymapProps0, []⟩ _ rfl).trans (by decide)
  · rw [C3_block_metadata_flags_lost id genExtents0 SollumzGame.GTA "CEntityDef"
      settings0 ⟨"cnt", ymapProps0, []⟩ _ rfl]
    decide

theorem eulerToQuat_x_axis :
    eulerToQuat ((2 : ℚ), (0 : ℚ), (0 : ℚ)) = ⟨Real.cos 1, Real.sin 1, 0, 0⟩ := by
  unfold eulerToQuat Quat.mul
  have h2 : (((2 : ℚ) : ℝ)) / 2 = 1 := by norm_num
  have h0 : (((0 : ℚ) : ℝ)) / 2 = 0 := by norm_num
  simp [h2, h0]

/-- C2: the rotation written by the entity-encoding routine does not
depend on the object's declared placement kind — the line 92 branch
tests the freshly constructed record's constant `type` default, never
the object — whereas the spec's rotation rule assigns the two declared
kinds two different quaternions (for any rotation whose quaternion
differs from its inverse).  So for every possible record-class default,
the code maps the two declared kinds to one and the same rotation while
the claim demands distinct ones. -/
theorem C2_rotation_ignores_declared_kind :
    ∀ (game : SollumzGame) (entity_default_type : String),
      (entity_from_obj game entity_default_type objCMlo).2.rotation =
        (entity_from_obj game entity_default_type objCEnt).2.rotation ∧
      specEntityRotation objCMlo ≠ specEntityRotation objCEnt := by
  intro game d
  refine ⟨rfl, ?_⟩
  have hM : specEntityRotation objCMlo = eulerToQuat ((2 : ℚ), (0 : ℚ), (0 : ℚ)) := by
    unfold specEntityRotation
    rw [if_neg (by decide)]
    rfl
  have hE : specEntityRotation objCEnt =
      (eulerToQuat ((2 : ℚ), (0 : ℚ), (0 : ℚ))).invert := by
    unfold specEntityRotation
    rw [if_pos (by decide)]
    rfl
  intro h
  rw [hM, hE, eulerToQuat_x_axis] at h
  have hn : (Quat.normSq ⟨Real.cos 1, Real.sin 1, 0, 0⟩) = 1 := by
    unfold Quat.normSq
    simp [Real.cos_sq_add_sin_sq 1]
  unfold Quat.invert at h
  rw [hn] at h
  have hx := congrArg Quat.x h
  simp only [] at hx
  have hs : Real.sin 1 = -Real.sin 1 := by simpa using hx
  have hpos : 0 < Real.sin 1 :=
    Real.sin_pos_of_pos_of_lt_pi (by norm_num) (by linarith [Real.pi_gt_three])
  linarith

/-- C9 counterexample: the entity-encoding routine is not a pure
function of the source placement object — it rewrites the source
object's name in place (lower-cased, diagnostic marker stripped). -/
theorem C9_entity_encoding_mutates_source_name :
    (entity_from_obj SollumzGame.GTA "CEntityDef" objNF).1.name ≠ objNF.name ∧
    objNF.name = "Tree (not found)" ∧
    (entity_from_obj SollumzGame.GTA "CEntityDef" objNF).1.name = "tree" :=
  ⟨by decide, rfl, by decide⟩

/-- C9 (amended): the scene-side mutations of a map export are the
in-place triangulation, the entity-encoding routine's in-place rewrite
of the source object's name — and nothing else of the source object —
and, on the container, exactly the has-occlusion toggle write next to
the specified extents recomputation. -/
theorem C9_scene_mutation_frame :
    (∀ (game : SollumzGame) (d : String) (obj : ChildObj),
      (entity_from_obj game d obj).1 =
        { obj with name := pyNormalizeEntityName obj.name }) ∧
    (∀ (tri : Mesh → Mesh) (gx : YmapObj → YmapExtents) (game : SollumzGame)
        (d : String) (s : ExportSettings) (obj : YmapObj) t,
      ymap_from_object tri gx game d s obj = Except.ok t →
        t.2.1.name = obj.name ∧
        t.2.1.ymap_properties =
          { obj.ymap_properties with
            content_flags_toggle_has_occl := t.1.content_flags_has_occl
            entities_extents_min := t.1.entities_extents_min
            entities_extents_max := t.1.entities_extents_max
            streaming_extents_min := t.1.streaming_extents_min
            streaming_extents_max := t.1.streaming_extents_max }) := by
  constructor
  · intro game d obj
    rfl
  · intro tri gx game d s obj t ht
    obtain ⟨acc, gs, _, _, rfl⟩ := ymap_from_object_ok_iff.mp ht
    exact ⟨rfl, rfl⟩

theorem C9_scene_mutation_frame_witness :
    ∃ t, ymap_from_object id genExtents0 SollumzGame.GTA "CEntityDef" settings0
        ⟨"cnt9", ymapProps0, []⟩ = Except.ok t ∧
      (t.2.1.name = "cnt9" ∧
        t.2.1.ymap_properties =
          { ymapProps0 with
            content_flags_toggle_has_occl := t.1.content_flags_has_occl
            entities_extents_min := t.1.entities_extents_min
            entities_extents_max := t.1.entities_extents_max
            streaming_extents_min := t.1.streaming_extents_min
            streaming_extents_max := t.1.streaming_extents_max }) :=
  ⟨_, rfl, C9_scene_mutation_frame.2 id genExtents0 SollumzGame.GTA "CEntityDef"
    settings0 ⟨"cnt9", ymapProps0, []⟩ _ rfl⟩

/-- Collecting the drawable children through the loop's guard equals
filtering for the drawable role and mapping the per-child encoding. -/
theorem filterMap_drawable {β : Type} (F : YObj → β) (l : List YObj) :
    (l.filterMap fun c =>
      if c.sollum_type ≠ SollumType.drawable then none else some (F c)) =
      (l.filter fun c => decide (c.sollum_type = SollumType.drawable)).map F := by
  simp only [ne_eq, ite_not]
  induction l with
  | nil => rfl
  | cons a l ih =>
    rw [List.filterMap_cons, List.filter_cons]
    by_cases h : a.sollum_type = SollumType.drawable <;> simp [h, ih]

/-- C8 counterexample: for a child that is itself an armature object,
the binding passed to the drawable-encoding collaborator is `None`,
not the child's own armature as the claim states. -/
theorem C8_armature_child_binding_counterexample :
    ydd_child_armature_binding contA [childA] childA = none ∧
    specYddArmatureBinding contA [childA] childA = some childA ∧
    ydd_child_armature_binding contA [childA] childA ≠
      specYddArmatureBinding contA [childA] childA := by decide

/-- C8 (amended): the armature binding passed to the external
drawable-encoding collaborator is `None` when the child is itself an
armature object, and otherwise is the shared reference armature located
at entry (the container itself if it is an armature, else the first
armature-typed immediate child); every drawable-classified child is
encoded with exactly that binding. -/
theorem C8_armature_binding (enc : YObj → Option YObj → DrawableXml)
    (nh nhl : String → ℕ) (cont : YObj) (children : List YObj) (ex : Bool) :
    (∀ child, ydd_child_armature_binding cont children child =
        if child.obj_type = BlenderType.ARMATURE then none
        else ydd_reference_armature cont children) ∧
    ydd_reference_armature cont children =
      (if cont.obj_type = BlenderType.ARMATURE then some cont
       else children.find? (fun c => c.obj_type = BlenderType.ARMATURE)) ∧
    ((create_ydd_xml enc nh nhl cont children ex).2).Perm
      ((children.filter fun c => decide (c.sollum_type = SollumType.drawable)).map
        (fun child => ydd_post ex child
          (enc child
            (if child.obj_type = BlenderType.ARMATURE then none
             else ydd_reference_armature cont children)))) := by
  have hb : ∀ child, ydd_child_armature_binding cont children child =
      if child.obj_type = BlenderType.ARMATURE then none
      else ydd_reference_armature cont children := by
    intro child
    unfold ydd_child_armature_binding
    by_cases h : child.obj_type = BlenderType.ARMATURE <;> simp [h]
  refine ⟨hb, ?_, ?_⟩
  · unfold ydd_reference_armature find_ydd_armature
    by_cases h : cont.obj_type = BlenderType.ARMATURE <;> simp [h]
  · have hmap : (children.filter fun c => decide (c.sollum_type = SollumType.drawable)).map
        (fun child => ydd_post ex child
          (enc child (ydd_child_armature_binding cont children child))) =
        (children.filter fun c => decide (c.sollum_type = SollumType.drawable)).map
        (fun child => ydd_post ex child
          (enc child
            (if child.obj_type = BlenderType.ARMATURE then none
             else ydd_reference_armature cont children))) :=
      List.map_congr_left fun c _ => by rw [hb]
    unfold create_ydd_xml
    cases cont.sollum_game_type
    · rw [filterMap_drawable, hmap] at *
      exact List.perm_insertionSort _ _
    · rw [filterMap_drawable, hmap] at *
      exact List.perm_insertionSort _ _

/-- C7: for every drawable-set export, the returned sequence is sorted
ascending by the variant's 32-bit hash key — the name hash of the base
name (before the first period) for the GTA variant, the literal parse
of the assigned hash identifier for the RDR variant — and it is a
permutation of the drawables collected from the children (the model is
a pure function of its inputs, so repeated runs produce the same
order). -/
theorem C7_drawable_set_ordering (enc : YObj → Option YObj → DrawableXml)
    (nh nhl : String → ℕ) (cont : YObj) (children : List YObj) (ex : Bool) :
    ((cont.sollum_game_type = SollumzGame.GTA →
        ((create_ydd_xml enc nh nhl cont children ex).2).Sorted
          (fun a b => get_hash nh a ≤ get_hash nh b)) ∧
      (cont.sollum_game_type = SollumzGame.RDR →
        ((create_ydd_xml enc nh nhl cont children ex).2).Sorted
          (fun a b =>
            rdr_get_hash_literal nhl a ≤ rdr_get_hash_literal nhl b))) ∧
    ((create_ydd_xml enc nh nhl cont children ex).2).Perm
      (children.filterMap fun child =>
        if child.sollum_type ≠ SollumType.drawable then none
        else some (ydd_post ex child
          (enc child (ydd_child_armature_binding cont children child)))) := by
  haveI h1 : IsTotal DrawableXml (fun a b => get_hash nh a ≤ get_hash nh b) :=
    ⟨fun a b => Nat.le_total _ _⟩
  haveI h2 : IsTrans DrawableXml (fun a b => get_hash nh a ≤ get_hash nh b) :=
    ⟨fun a b c => Nat.le_trans⟩
  haveI h3 : IsTotal DrawableXml
      (fun a b => rdr_get_hash_literal nhl a ≤ rdr_get_hash_literal nhl b) :=
    ⟨fun a b => Nat.le_total _ _⟩
  haveI h4 : IsTrans DrawableXml
      (fun a b => rdr_get_hash_literal nhl a ≤ rdr_get_hash_literal nhl b) :=
    ⟨fun a b c => Nat.le_trans⟩
  unfold create_ydd_xml
  cases hg : cont.sollum_game_type
  · refine ⟨⟨fun _ => List.sorted_insertionSort _ _, fun h => ?_⟩,
      List.perm_insertionSort _ _⟩
    cases h
  · refine ⟨⟨fun h => ?_, fun _ => List.sorted_insertionSort _ _⟩,
      List.perm_insertionSort _ _⟩
    cases h

theorem C7_drawable_set_ordering_witness :
    ((create_ydd_xml encW hashLen hashLen yddContW
        [yddChild "bb" "h1", yddChild "a" "h2", yddChild "ccc" "h3"] false).2).Sorted
      (fun a b => get_hash hashLen a ≤ get_hash hashLen b) :=
  (C7_drawable_set_ordering encW hashLen hashLen yddContW
    [yddChild "bb" "h1", yddChild "a" "h2", yddChild "ccc" "h3"] false).1.1 rfl

/-! ## Lemmas about the map-export child loop -/

/-- One box-group member yields exactly one record or exactly one
diagnostic. -/
theorem process_box_child_count (c : ChildObj) :
    (process_box_child c).1.length + (process_box_child c).2.length = 1 := by
  unfold process_box_child
  split_ifs <;> rfl

/-- Every box-group member yields exactly one record or exactly one
diagnostic. -/
theorem box_results_diags_count (cs : List ChildObj) :
    (box_results cs).length + (box_diags cs).length = cs.length := by
  induction cs with
  | nil => rfl
  | cons c cs ih =>
    unfold box_results box_diags at ih ⊢
    rw [List.flatMap_cons, List.flatMap_cons, List.length_append, List.length_append,
      List.length_cons]
    have hc := process_box_child_count c
    omega

/-- One car-generator group member yields exactly one record or exactly
one diagnostic. -/
theorem process_cargen_child_count (c : ChildObj) :
    (process_cargen_child c).1.length + (process_cargen_child c).2.length = 1 := by
  unfold process_cargen_child
  split_ifs <;> rfl

/-- Every car-generator group member yields exactly one record or
exactly one diagnostic. -/
theorem cargen_results_diags_count (cs : List ChildObj) :
    (cargen_results cs).length + (cargen_diags cs).length = cs.length := by
  induction cs with
  | nil => rfl
  | cons c cs ih =>
    unfold cargen_results cargen_diags at ih ⊢
    rw [List.flatMap_cons, List.flatMap_cons, List.length_append, List.length_append,
      List.length_cons]
    have hc := process_cargen_child_count c
    omega

/-- Every model-group member of a successful run yields exactly one
record or exactly one diagnostic, and the mutated children list keeps
its length. -/
theorem process_model_children_count (tri : Mesh → Mesh) (cs : List ChildObj) :
    ∀ r, process_model_children tri cs = Except.ok r →
      r.2.1.length + r.2.2.length = cs.length ∧ r.1.length = cs.length := by
  induction cs with
  | nil =>
    intro r h
    unfold process_model_children at h
    cases Except.ok.inj h
    exact ⟨rfl, rfl⟩
  | cons c cs ih =>
    intro r h
    unfold process_model_children at h
    by_cases h1 : c.sollum_type = SollumType.ymap_model_occluder
    · rw [if_pos h1] at h
      by_cases h2 : c.mesh.vertices.length > 256
      · rw [if_pos h2] at h
        cases hr : process_model_children tri cs with
        | error e => rw [hr] at h; simp [Bind.bind, Except.bind] at h
        | ok rest =>
          rw [hr] at h
          simp only [Bind.bind, Except.bind] at h
          cases Except.ok.inj h
          have := ih rest hr
          simp only [List.length_cons]
          omega
      · rw [if_neg h2] at h
        cases hm : (model_from_obj tri c).2 with
        | error e =>
          rw [hm] at h
          simp [Bind.bind, Except.bind] at h
        | ok m =>
          rw [hm] at h
          cases hr : process_model_children tri cs with
          | error e => rw [hr] at h; simp [Bind.bind, Except.bind] at h
          | ok rest =>
            rw [hr] at h
            simp only [Bind.bind, Except.bind] at h
            cases Except.ok.inj h
            have := ih rest hr
            simp only [List.length_cons]
            omega
    · rw [if_neg h1] at h
      cases hr : process_model_children tri cs with
      | error e => rw [hr] at h; simp [Bind.bind, Except.bind] at h
      | ok rest =>
        rw [hr] at h
        simp only [Bind.bind, Except.bind] at h
        cases Except.ok.inj h
        have := ih rest hr
        simp only [List.length_cons]
        omega

/-- The entity branch of the child loop. -/
theorem process_group_entity_branch {tri : Mesh → Mesh} {game : SollumzGame}
    {d : String} {s : ExportSettings} {g : GroupObj}
    (hs : s.ymap_exclude_entities = false)
    (hg : g.sollum_type = SollumType.ymap_entity_group) :
    process_group tri game d s g =
      Except.ok
        ⟨{ g with children := (g.children.map (fun c => (entity_from_obj game d c).1)) },
          g.children.map (fun c => (entity_from_obj game d c).2),
          [], [], [], false, []⟩ := by
  unfold process_group
  rw [if_pos ⟨hs, hg⟩]

/-- The box branch of the child loop. -/
theorem process_group_box_branch {tri : Mesh → Mesh} {game : SollumzGame}
    {d : String} {s : ExportSettings} {g : GroupObj}
    (hs : s.ymap_box_occluders = false)
    (hg : g.sollum_type = SollumType.ymap_box_occluder_group) :
    process_group tri game d s g =
      Except.ok ⟨g, [], box_results g.children, [], [], true, box_diags g.children⟩ := by
  unfold process_group
  rw [if_neg (by simp [hg]), if_pos ⟨hs, hg⟩]

/-- The model branch of the child loop. -/
theorem process_group_model_branch {tri : Mesh → Mesh} {game : SollumzGame}
    {d : String} {s : ExportSettings} {g : GroupObj}
    (hs : s.ymap_model_occluders = false)
    (hg : g.sollum_type = SollumType.ymap_model_occluder_group) :
    process_group tri game d s g =
      (process_model_children tri g.children).map
        (fun r => ⟨{ g with children := r.1 }, [], [], r.2.1, [], true, r.2.2⟩) := by
  unfold process_group
  rw [if_neg (by simp [hg]), if_neg (by simp [hg]), if_pos ⟨hs, hg⟩]

/-- The car-generator branch of the child loop. -/
theorem process_group_cargen_branch {tri : Mesh → Mesh} {game : SollumzGame}
    {d : String} {s : ExportSettings} {g : GroupObj}
    (hs : s.ymap_car_generators = false)
    (hg : g.sollum_type = SollumType.ymap_car_generator_group) :
    process_group tri game d s g =
      Except.ok ⟨g, [], [], [], cargen_results g.children, false,
        cargen_diags g.children⟩ := by
  unfold process_group
  rw [if_neg (by simp [hg]), if_neg (by simp [hg]), if_neg (by simp [hg]),
    if_pos ⟨hs, hg⟩]

/-- A disabled category's branch is never taken: the group contributes
the neutral result, with its children untouched, no record and no
diagnostic. -/
theorem process_group_disabled {tri : Mesh → Mesh} {game : SollumzGame}
    {d : String} {s : ExportSettings} {g : GroupObj} :
    (s.ymap_exclude_entities = true →
      g.sollum_type = SollumType.ymap_entity_group →
      process_group tri game d s g = Except.ok (GroupResult.neutral g)) ∧
    (s.ymap_box_occluders = true →
      g.sollum_type = SollumType.ymap_box_occluder_group →
      process_group tri game d s g = Except.ok (GroupResult.neutral g)) ∧
    (s.ymap_model_occluders = true →
      g.sollum_type = SollumType.ymap_model_occluder_group →
      process_group tri game d s g = Except.ok (GroupResult.neutral g)) ∧
    (s.ymap_car_generators = true →
      g.sollum_type = SollumType.ymap_car_generator_group →
      process_group tri game d s g = Except.ok (GroupResult.neutral g)) := by
  refine ⟨fun hs hg => ?_, fun hs hg => ?_, fun hs hg => ?_, fun hs hg => ?_⟩ <;>
    · unfold process_group
      rw [if_neg (by simp [hs, hg]), if_neg (by simp [hs, hg]),
        if_neg (by simp [hs, hg]), if_neg (by simp [hs, hg])]

/-- Destructuring a successful run of the sequenced child loop. -/
theorem process_children_cons_iff {tri : Mesh → Mesh} {game : SollumzGame}
    {d : String} {s : ExportSettings} {g : GroupObj} {gs : List GroupObj}
    {acc : GroupResult} :
    process_children tri game d s (g :: gs) = Except.ok acc ↔
      ∃ r rest, process_group tri game d s g = Except.ok r ∧
        process_children tri game d s gs = Except.ok rest ∧
        acc = ⟨⟨SollumType.other, []⟩, r.entities ++ rest.entities,
          r.boxes ++ rest.boxes, r.models ++ rest.models,
          r.cargens ++ rest.cargens, r.occl_mark || rest.occl_mark,
          r.log ++ rest.log⟩ := by
  constructor
  · intro h
    unfold process_children at h
    cases h1 : process_group tri game d s g with
    | error e => rw [h1] at h; simp [Bind.bind, Except.bind] at h
    | ok r =>
      rw [h1] at h
      cases h2 : process_children tri game d s gs with
      | error e => rw [h2] at h; simp [Bind.bind, Except.bind] at h
      | ok rest =>
        rw [h2] at h
        simp only [Bind.bind, Except.bind] at h
        exact ⟨r, rest, rfl, rfl, (Except.ok.inj h).symm⟩
  · rintro ⟨r, rest, h1, h2, rfl⟩
    unfold process_children
    rw [h1, h2]
    rfl

/-- On success, a group marks the has-occlusion toggle exactly when it
is an enabled box-occluder or model-occluder group. -/
theorem process_group_ok_occl_mark {tri : Mesh → Mesh} {game : SollumzGame}
    {d : String} {s : ExportSettings} {g : GroupObj} {r : GroupResult}
    (h : process_group tri game d s g = Except.ok r) :
    r.occl_mark =
      ((!s.ymap_box_occluders &&
          decide (g.sollum_type = SollumType.ymap_box_occluder_group)) ||
        (!s.ymap_model_occluders &&
          decide (g.sollum_type = SollumType.ymap_model_occluder_group))) := by
  unfold process_group at h
  split_ifs at h with h1 h2 h3 h4
  · cases Except.ok.inj h
    simp [h1.2]
  · cases Except.ok.inj h
    simp [h2.1, h2.2]
  · cases hm : process_model_children tri g.children with
    | error e => rw [hm] at h; simp [Except.map] at h
    | ok rest =>
      rw [hm] at h
      simp only [Except.map] at h
      cases Except.ok.inj h
      simp [h3.1, h3.2]
  · cases Except.ok.inj h
    simp [h4.2]
  · cases Except.ok.inj h
    have hbox : (!s.ymap_box_occluders &&
        decide (g.sollum_type = SollumType.ymap_box_occluder_group)) = false := by
      rcases Bool.eq_false_or_eq_true s.ymap_box_occluders with hb | hb
      · simp [hb]
      · have hng : ¬ g.sollum_type = SollumType.ymap_box_occluder_group :=
          fun hg => h2 ⟨hb, hg⟩
        simp [hng]
    have hmod : (!s.ymap_model_occluders &&
        decide (g.sollum_type = SollumType.ymap_model_occluder_group)) = false := by
      rcases Bool.eq_false_or_eq_true s.ymap_model_occluders with hb | hb
      · simp [hb]
      · have hng : ¬ g.sollum_type = SollumType.ymap_model_occluder_group :=
          fun hg => h3 ⟨hb, hg⟩
        simp [hng]
    rw [hbox, hmod]
    rfl

/-- On success, a disabled category contributes no record to the
group's result. -/
theorem process_group_ok_disabled_nil {tri : Mesh → Mesh} {game : SollumzGame}
    {d : String} {s : ExportSettings} {g : GroupObj} {r : GroupResult}
    (h : process_group tri game d s g = Except.ok r) :
    (s.ymap_exclude_entities = true → r.entities = []) ∧
    (s.ymap_box_occluders = true → r.boxes = []) ∧
    (s.ymap_model_occluders = true → r.models = []) ∧
    (s.ymap_car_generators = true → r.cargens = []) := by
  unfold process_group at h
  split_ifs at h with h1 h2 h3 h4
  · cases Except.ok.inj h
    exact ⟨fun hs => absurd h1.1 (by simp [hs]), fun _ => rfl, fun _ => rfl,
      fun _ => rfl⟩
  · cases Except.ok.inj h
    exact ⟨fun _ => rfl, fun hs => absurd h2.1 (by simp [hs]), fun _ => rfl,
      fun _ => rfl⟩
  · cases hm : process_model_children tri g.children with
    | error e => rw [hm] at h; simp [Except.map] at h
    | ok rest =>
      rw [hm] at h
      simp only [Except.map] at h
      cases Except.ok.inj h
      exact ⟨fun _ => rfl, fun _ => rfl, fun hs => absurd h3.1 (by simp [hs]),
        fun _ => rfl⟩
  · cases Except.ok.inj h
    exact ⟨fun _ => rfl, fun _ => rfl, fun _ => rfl,
      fun hs => absurd h4.1 (by simp [hs])⟩
  · cases Except.ok.inj h
    exact ⟨fun _ => rfl, fun _ => rfl, fun _ => rfl, fun _ => rfl⟩

/-- On success, a disabled category contributes no record to the whole
loop's accumulation. -/
theorem process_children_ok_disabled_nil {tri : Mesh → Mesh}
    {game : SollumzGame} {d : String} {s : ExportSettings}
    {gs : List GroupObj} {acc : GroupResult}
    (h : process_children tri game d s gs = Except.ok acc) :
    (s.ymap_exclude_entities = true → acc.entities = []) ∧
    (s.ymap_box_occluders = true → acc.boxes = []) ∧
    (s.ymap_model_occluders = true → acc.models = []) ∧
    (s.ymap_car_generators = true → acc.cargens = []) := by
  induction gs generalizing acc with
  | nil =>
    unfold process_children at h
    cases Except.ok.inj h
    exact ⟨fun _ => rfl, fun _ => rfl, fun _ => rfl, fun _ => rfl⟩
  | cons g gs ih =>
    obtain ⟨r, rest, h1, h2, rfl⟩ := process_children_cons_iff.mp h
    have hr := process_group_ok_disabled_nil h1
    have hrest := ih h2
    exact ⟨fun hs => by simp [hr.1 hs, hrest.1 hs],
      fun hs => by simp [hr.2.1 hs, hrest.2.1 hs],
      fun hs => by simp [hr.2.2.1 hs, hrest.2.2.1 hs],
      fun hs => by simp [hr.2.2.2 hs, hrest.2.2.2 hs]⟩

/-- On success, the loop marks has-occlusion exactly when some child is
an enabled box-occluder or model-occluder group. -/
theorem process_children_ok_occl_mark {tri : Mesh → Mesh}
    {game : SollumzGame} {d : String} {s : ExportSettings}
    {gs : List GroupObj} {acc : GroupResult}
    (h : process_children tri game d s gs = Except.ok acc) :
    acc.occl_mark = gs.any (fun g =>
      (!s.ymap_box_occluders &&
        decide (g.sollum_type = SollumType.ymap_box_occluder_group)) ||
      (!s.ymap_model_occluders &&
        decide (g.sollum_type = SollumType.ymap_model_occluder_group))) := by
  induction gs generalizing acc with
  | nil =>
    unfold process_children at h
    cases Except.ok.inj h
    rfl
  | cons g gs ih =>
    obtain ⟨r, rest, h1, h2, rfl⟩ := process_children_cons_iff.mp h
    rw [List.any_cons, ← process_group_ok_occl_mark h1, ← ih h2]

/-- C1: each content category of the map-data exporter is gated on its
own caller-supplied flag.  When a category is disabled (its exclusion
toggle is set, so the enable flag is off), a group of that category
contributes the neutral result — its children are not visited: they are
returned untouched, no record is produced and no diagnostic is emitted
— and the produced map record contains no record of that category at
all.  When the category is enabled, the group's children are processed:
every entity child yields a record, and every box / model / car
generator child yields exactly one record or exactly one diagnostic. -/
theorem C1_category_gating :
    (∀ (tri : Mesh → Mesh) (game : SollumzGame) (d : String)
        (s : ExportSettings) (g : GroupObj),
      (s.ymap_exclude_entities = true →
        g.sollum_type = SollumType.ymap_entity_group →
        process_group tri game d s g = Except.ok (GroupResult.neutral g)) ∧
      (s.ymap_box_occluders = true →
        g.sollum_type = SollumType.ymap_box_occluder_group →
        process_group tri game d s g = Except.ok (GroupResult.neutral g)) ∧
      (s.ymap_model_occluders = true →
        g.sollum_type = SollumType.ymap_model_occluder_group →
        process_group tri game d s g = Except.ok (GroupResult.neutral g)) ∧
      (s.ymap_car_generators = true →
        g.sollum_type = SollumType.ymap_car_generator_group →
        process_group tri game d s g = Except.ok (GroupResult.neutral g))) ∧
    (∀ (tri : Mesh → Mesh) (game : SollumzGame) (d : String)
        (s : ExportSettings) (g : GroupObj) (r : GroupResult),
      process_group tri game d s g = Except.ok r →
      (s.ymap_exclude_entities = false →
        g.sollum_type = SollumType.ymap_entity_group →
        r.entities = g.children.map (fun c => (entity_from_obj game d c).2) ∧
        r.entities.length = g.children.length) ∧
      (s.ymap_box_occluders = false →
        g.sollum_type = SollumType.ymap_box_occluder_group →
        r.boxes.length + r.log.length = g.children.length) ∧
      (s.ymap_model_occluders = false →
        g.sollum_type = SollumType.ymap_model_occluder_group →
        r.models.length + r.log.length = g.children.length) ∧
      (s.ymap_car_generators = false →
        g.sollum_type = SollumType.ymap_car_generator_group →
        r.cargens.length + r.log.length = g.children.length)) ∧
    (∀ (tri : Mesh → Mesh) (gx : YmapObj → YmapExtents) (game : SollumzGame)
        (d : String) (s : ExportSettings) (obj : YmapObj) t,
      ymap_from_object tri gx game d s obj = Except.ok t →
      (s.ymap_exclude_entities = true → t.1.entities = []) ∧
      (s.ymap_box_occluders = true → t.1.box_occluders = []) ∧
      (s.ymap_model_occluders = true → t.1.occlude_models = []) ∧
      (s.ymap_car_generators = true → t.1.car_generators = [])) := by
  refine ⟨?_, ?_, ?_⟩
  · intro tri game d s g
    exact process_group_disabled
  · intro tri game d s g r h
    refine ⟨fun hs hg => ?_, fun hs hg => ?_, fun hs hg => ?_, fun hs hg => ?_⟩
    · rw [process_group_entity_branch hs hg] at h
      cases Except.ok.inj h
      exact ⟨rfl, List.length_map _ _⟩
    · rw [process_group_box_branch hs hg] at h
      cases Except.ok.inj h
      exact box_results_diags_count g.children
    · rw [process_group_model_branch hs hg] at h
      cases hm : process_model_children tri g.children with
      | error e => rw [hm] at h; simp [Except.map] at h
      | ok rest =>
        rw [hm] at h
        simp only [Except.map] at h
        cases Except.ok.inj h
        exact (process_model_children_count tri g.children rest hm).1
    · rw [process_group_cargen_branch hs hg] at h
      cases Except.ok.inj h
      exact cargen_results_diags_count g.children
  · intro tri gx game d s obj t ht
    obtain ⟨acc, gs, hpc, _, rfl⟩ := ymap_from_object_ok_iff.mp ht
    exact process_children_ok_disabled_nil hpc

theorem C1_category_gating_witness :
    process_group id SollumzGame.GTA "CEntityDef" settingsAll gEnt =
      Except.ok (GroupResult.neutral gEnt) ∧
    (∃ r, process_group id SollumzGame.GTA "CEntityDef" settings0 gBoxTilt =
        Except.ok r ∧ r.boxes.length + r.log.length = 1) ∧
    (∃ t, ymap_from_object id genExtents0 SollumzGame.GTA "CEntityDef" settingsAll
        ⟨"c1", ymapProps0, [gEnt]⟩ = Except.ok t ∧ t.1.entities = []) := by
  refine ⟨(C1_category_gating.1 id SollumzGame.GTA "CEntityDef" settingsAll gEnt).1
      rfl rfl, ⟨_, rfl, ?_⟩, ⟨_, rfl, ?_⟩⟩
  · exact ((C1_category_gating.2.1 id SollumzGame.GTA "CEntityDef" settings0 gBoxTilt
      _ rfl).2.1 rfl rfl)
  · exact ((C1_category_gating.2.2 id genExtents0 SollumzGame.GTA "CEntityDef"
      settingsAll ⟨"c1", ymapProps0, [gEnt]⟩ _ rfl).1 rfl)

/-- C4 counterexample: an export whose box-occluder group is empty
still sets the has-occlusion content flag while including no occluder
of either kind, so the flag is not equivalent to the presence of an
included occluder. -/
theorem C4_has_occl_counterexample :
    ∃ t, ymap_from_object id genExtents0 SollumzGame.GTA "CEntityDef" settings0
        containerBoxEmpty = Except.ok t ∧
      t.1.content_flags_has_occl = true ∧
      t.1.box_occluders = [] ∧ t.1.occlude_models = [] ∧
      ¬ (t.1.content_flags_has_occl = true ↔
          (t.1.box_occluders ≠ [] ∨ t.1.occlude_models ≠ [])) := by
  refine ⟨_, rfl, rfl, rfl, rfl, ?_⟩
  intro hiff
  rcases hiff.mp rfl with hne | hne <;> exact hne rfl

/-- C4 (amended): the has-occlusion content flag of the produced record
is set iff the container's toggle was already set or some child is a
box-occluder or model-occluder group whose category is enabled —
independently of whether any occluder record is actually included. -/
theorem C4_has_occl_flag (tri : Mesh → Mesh) (gx : YmapObj → YmapExtents)
    (game : SollumzGame) (d : String) (s : ExportSettings) (obj : YmapObj) :
    ∀ t, ymap_from_object tri gx game d s obj = Except.ok t →
      t.1.content_flags_has_occl =
        (obj.ymap_properties.content_flags_toggle_has_occl ||
          obj.children.any (fun g =>
            (!s.ymap_box_occluders &&
              decide (g.sollum_type = SollumType.ymap_box_occluder_group)) ||
            (!s.ymap_model_occluders &&
              decide (g.sollum_type = SollumType.ymap_model_occluder_group)))) := by
  intro t ht
  obtain ⟨acc, gs, hpc, _, rfl⟩ := ymap_from_object_ok_iff.mp ht
  have hm := process_children_ok_occl_mark hpc
  show (obj.ymap_properties.content_flags_toggle_has_occl || acc.occl_mark) = _
  rw [hm]

theorem C4_has_occl_flag_witness :
    ∃ t, ymap_from_object id genExtents0 SollumzGame.GTA "CEntityDef" settings0
        containerBoxEmpty = Except.ok t ∧
      t.1.content_flags_has_occl =
        (containerBoxEmpty.ymap_properties.content_flags_toggle_has_occl ||
          containerBoxEmpty.children.any (fun g =>
            (!settings0.ymap_box_occluders &&
              decide (g.sollum_type = SollumType.ymap_box_occluder_group)) ||
            (!settings0.ymap_model_occluders &&
              decide (g.sollum_type = SollumType.ymap_model_occluder_group)))) :=
  ⟨_, rfl, C4_has_occl_flag id genExtents0 SollumzGame.GTA "CEntityDef" settings0
    containerBoxEmpty _ rfl⟩

/-! ## Rounding facts for the box-orientation claim -/

theorem pyRound_half_odd : pyRound (16383.5 : ℝ) = 16384 := by
  have hfl : ⌊(16383.5 : ℝ)⌋ = 16383 := by
    rw [Int.floor_eq_iff]
    norm_num
  have hfr : Int.fract (16383.5 : ℝ) = 1 / 2 := by
    rw [Int.fract, hfl]
    norm_num
  have hround : round ((16383.5 : ℝ) / 2) = 8192 := by
    rw [round_eq, Int.floor_eq_iff]
    norm_num
  unfold pyRound
  rw [if_pos hfr, hround]
  norm_num

theorem pyRound_between {y : ℝ} (h1 : (16382.6 : ℝ) ≤ y)
    (h2 : y < 16383.5) : pyRound y = 16383 := by
  have hfr : Int.fract y ≠ 1 / 2 := by
    intro hf
    have hy : ((⌊y⌋ : ℝ) + 1 / 2) = y := by
      rw [← hf]
      exact Int.floor_add_fract y
    have hlow : (16382 : ℤ) < ⌊y⌋ := by
      have : (16382 : ℝ) < (⌊y⌋ : ℝ) := by linarith
      exact_mod_cast this
    have hhigh : ⌊y⌋ < (16383 : ℤ) := by
      have : ((⌊y⌋ : ℝ)) < 16383 := by linarith
      exact_mod_cast this
    omega
  unfold pyRound
  rw [if_neg hfr, round_eq, Int.floor_eq_iff]
  constructor <;> push_cast <;> linarith

/-- Bounds on the cosine of the admissible tilt `0.01`. -/
theorem cos_hundredth_bounds :
    (0.99995 : ℝ) ≤ Real.cos 0.01 ∧ Real.cos 0.01 < 1 := by
  constructor
  · have h := Real.one_sub_sq_div_two_le_cos (x := (0.01 : ℝ))
    nlinarith
  · have h := Real.cos_lt_cos_of_nonneg_of_le_pi (le_refl (0 : ℝ))
      (by linarith [Real.pi_gt_three]) (by norm_num : (0 : ℝ) < 0.01)
    rw [Real.cos_zero] at h
    exact h

/-- C6 counterexample: a box occluder whose X/Y rotation components are
within tolerance of zero (ry equals the admitted boundary 0.01) is
encoded from the full Euler rotation, and its encoded `sin_z` differs
from the spec's value computed from the Z-axis rotation alone. -/
theorem C6_box_orientation_counterexample :
    |objBoxTiltY.rotation_euler.1| ≤ 0.01 ∧
    |objBoxTiltY.rotation_euler.2.1| ≤ 0.01 ∧
    (box_from_obj objBoxTiltY).sin_z ≠
      (specBoxOrientation objBoxTiltY.rotation_euler.2.2).1 := by
  refine ⟨?_, ?_, ?_⟩
  · show |(0 : ℚ)| ≤ 0.01
    norm_num
  · show |(1 / 100 : ℚ)| ≤ 0.01
    rw [abs_of_nonneg (by norm_num : (0 : ℚ) ≤ 1 / 100)]
    norm_num
  have hcode : (box_from_obj objBoxTiltY).sin_z =
      pyRound ((rotAxisZ (((0 : ℚ) : ℝ))
        (rotAxisY (((1 / 100 : ℚ) : ℝ))
          (rotAxisX (((0 : ℚ) : ℝ)) (1, 0, 0)))).1 * 0.5 * 32767) := rfl
  have harg : (rotAxisZ (((0 : ℚ) : ℝ))
      (rotAxisY (((1 / 100 : ℚ) : ℝ))
        (rotAxisX (((0 : ℚ) : ℝ)) (1, 0, 0)))).1 * 0.5 * 32767 =
      16383.5 * Real.cos 0.01 := by
    have hc : (((1 / 100 : ℚ) : ℝ)) = 0.01 := by norm_num
    simp [rotAxisX, rotAxisY, rotAxisZ, hc]
    ring_nf
  have hspec : (specBoxOrientation objBoxTiltY.rotation_euler.2.2).1 =
      pyRound ((Real.cos (((0 : ℚ) : ℝ)) * 0.5 -
        Real.sin (((0 : ℚ) : ℝ)) * 0) * 32767) := rfl
  have hspec2 : (specBoxOrientation objBoxTiltY.rotation_euler.2.2).1 = 16384 := by
    rw [hspec]
    have : (Real.cos (((0 : ℚ) : ℝ)) * 0.5 -
        Real.sin (((0 : ℚ) : ℝ)) * 0) * 32767 = (16383.5 : ℝ) := by
      simp
      norm_num
    rw [this, pyRound_half_odd]
  have hcode2 : (box_from_obj objBoxTiltY).sin_z = 16383 := by
    rw [hcode, harg]
    apply pyRound_between
    · nlinarith [cos_hundredth_bounds.1]
    · nlinarith [cos_hundredth_bounds.2]
  rw [hcode2, hspec2]
  decide

/-- C6 (amended): for every box-occluder input whose rotation
components rx and ry are exactly zero, the encoded centre and
dimensions equal `round(value*4)` of the computed world-space centre
and extents, and the encoded orientation pair equals the spec's
`(round(dir.x*32767), round(dir.y*32767))` for `dir = (0.5, 0, 0)`
rotated by the Z-axis rotation alone. -/
theorem C6_box_encoding_zero_tilt (obj : ChildObj)
    (hx : obj.rotation_euler.1 = 0) (hy : obj.rotation_euler.2.1 = 0) :
    (box_from_obj obj).center_x =
      pyRoundQ ((get_bound_center_from_bounds obj.bbmin obj.bbmax).1 * 4) ∧
    (box_from_obj obj).center_y =
      pyRoundQ ((get_bound_center_from_bounds obj.bbmin obj.bbmax).2.1 * 4) ∧
    (box_from_obj obj).center_z =
      pyRoundQ ((get_bound_center_from_bounds obj.bbmin obj.bbmax).2.2 * 4) ∧
    (box_from_obj obj).length = pyRoundQ (obj.dimensions.1 * 4) ∧
    (box_from_obj obj).width = pyRoundQ (obj.dimensions.2.1 * 4) ∧
    (box_from_obj obj).height = pyRoundQ (obj.dimensions.2.2 * 4) ∧
    (box_from_obj obj).sin_z = (specBoxOrientation obj.rotation_euler.2.2).1 ∧
    (box_from_obj obj).cos_z = (specBoxOrientation obj.rotation_euler.2.2).2 := by
  refine ⟨rfl, rfl, rfl, rfl, rfl, rfl, ?_, ?_⟩
  · show pyRound _ = pyRound _
    apply congrArg
    unfold eulerRotate
    rw [hx, hy]
    simp [rotAxisX, rotAxisY, rotAxisZ]
  · show pyRound _ = pyRound _
    apply congrArg
    unfold eulerRotate
    rw [hx, hy]
    simp [rotAxisX, rotAxisY, rotAxisZ]

theorem C6_box_encoding_zero_tilt_witness :
    (box_from_obj objBoxFlat).center_x =
      pyRoundQ ((get_bound_center_from_bounds objBoxFlat.bbmin objBoxFlat.bbmax).1 * 4) ∧
    (box_from_obj objBoxFlat).length = pyRoundQ (objBoxFlat.dimensions.1 * 4) ∧
    (box_from_obj objBoxFlat).sin_z =
      (specBoxOrientation objBoxFlat.rotation_euler.2.2).1 :=
  ⟨(C6_box_encoding_zero_tilt objBoxFlat rfl rfl).1,
    (C6_box_encoding_zero_tilt objBoxFlat rfl rfl).2.2.2.1,
    (C6_box_encoding_zero_tilt objBoxFlat rfl rfl).2.2.2.2.2.2.1⟩

end Sollumz
